import Mathlib

/-!
Shallow embedding of `src/Cpp_minidemo/Solar_System/main.cpp`, an SDL2
solar-system visualization: the `Planet` record with its orbit-position
update, the fixed screen and sun geometry, the render loop's draw-command
trace, the event handling that drives the `running` flag, and the startup
texture checks.

C++ doubles are modelled as exact numbers: the per-body constants
(`orbitRadius`, `orbitSpeed`, `angle`) are rationals, and the trigonometric
position formula is evaluated over the reals.  `static_cast<int>` applied to
a double truncates toward zero, modelled by `truncToInt`; C++ `int` division
(`w / 2`) also truncates toward zero, modelled by `Int.tdiv`.  SDL itself
(window, renderer, textures, event queue) is external I/O: textures are
modelled by an identifier naming which of the ten images they came from,
rendering by an emitted list of draw commands, and the event queue by the
per-frame batches of events the loop polls.
-/

/-- An integer rectangle: top-left corner, width and height (`SDL_Rect`). -/
structure SDL_Rect where
  x : Int
  y : Int
  w : Int
  h : Int
deriving DecidableEq

/-- Identifier of one of the ten textures loaded at startup
(main.cpp lines 87-96), in the order they are loaded. -/
inductive TexId where
  | stars
  | sun
  | mercury
  | venus
  | earth
  | mars
  | jupiter
  | saturn
  | uranus
  | neptune
deriving DecidableEq

/-- Truncation toward zero: the behavior of C++ `static_cast<int>` on a
double whose value is within `int` range. -/
noncomputable def truncToInt (x : ℝ) : Int :=
  if 0 ≤ x then ⌊x⌋ else ⌈x⌉

/-- The `Planet` struct (main.cpp lines 24-31): draw rectangle, orbit radius,
angular speed, current angle, texture, and the cached half-extents. -/
structure Planet where
  rect : SDL_Rect
  orbitRadius : ℚ
  orbitSpeed : ℚ
  angle : ℚ
  texture : TexId
  halfW : Int
  halfH : Int
deriving DecidableEq

/-- The `Planet` constructor (main.cpp lines 42-43): `rect = {0, 0, w, h}`,
`halfW = w / 2`, `halfH = h / 2` with C++ integer division. -/
def Planet.make (w h : Int) (orbitRadius orbitSpeed angle : ℚ) (texture : TexId) : Planet :=
  { rect := ⟨0, 0, w, h⟩, orbitRadius := orbitRadius, orbitSpeed := orbitSpeed,
    angle := angle, texture := texture, halfW := Int.tdiv w 2, halfH := Int.tdiv h 2 }

/-- `Planet::updatePosition` (main.cpp lines 50-54): the draw rectangle is
placed from the current angle, then the angle advances by `orbitSpeed`. -/
noncomputable def Planet.updatePosition (p : Planet) (sunX sunY : Int) : Planet :=
  { p with
    rect := { p.rect with
      x := sunX + truncToInt ((p.orbitRadius : ℝ) * Real.cos (p.angle : ℝ)) - p.halfW
      y := sunY + truncToInt ((p.orbitRadius : ℝ) * Real.sin (p.angle : ℝ)) - p.halfH }
    angle := p.angle + p.orbitSpeed }

/-- One renderer command issued during a frame. -/
inductive DrawCmd where
  | clear
  | copy (texture : TexId) (dst : SDL_Rect)
  | present
deriving DecidableEq

/-- `Planet::render` (main.cpp lines 60-62): copy the planet's texture to its
current rectangle.  It does not modify the planet. -/
def Planet.render (p : Planet) : DrawCmd :=
  DrawCmd.copy p.texture p.rect

/-- main.cpp line 15. -/
def SCREEN_WIDTH : Int := 1920

/-- main.cpp line 16. -/
def SCREEN_HEIGHT : Int := 1080

/-- main.cpp line 104: `{(SCREEN_WIDTH - 100) / 2, (SCREEN_HEIGHT - 100) / 2, 100, 100}`. -/
def sunRect : SDL_Rect :=
  ⟨Int.tdiv (SCREEN_WIDTH - 100) 2, Int.tdiv (SCREEN_HEIGHT - 100) 2, 100, 100⟩

/-- main.cpp line 105: the background covers the whole screen. -/
def backgroundRect : SDL_Rect :=
  ⟨0, 0, SCREEN_WIDTH, SCREEN_HEIGHT⟩

/-- main.cpp line 107: x-coordinate of the sun's center, computed once. -/
def sunXCoordinate : Int :=
  sunRect.x + Int.tdiv sunRect.w 2

/-- main.cpp line 108: y-coordinate of the sun's center, computed once. -/
def sunYCoordinate : Int :=
  sunRect.y + Int.tdiv sunRect.h 2

/-- main.cpp line 110. -/
def mercury : Planet := Planet.make 30 30 80 (0.02 * 4.15) 45 TexId.mercury

/-- main.cpp line 111. -/
def venus : Planet := Planet.make 40 40 125 (0.02 * 1.62) 90 TexId.venus

/-- main.cpp line 112. -/
def earth : Planet := Planet.make 50 50 175 0.02 135 TexId.earth

/-- main.cpp line 113. -/
def mars : Planet := Planet.make 40 40 225 (0.02 * 0.53) 180 TexId.mars

/-- main.cpp line 114. -/
def jupiter : Planet := Planet.make 80 80 290 (0.02 * 0.084) 225 TexId.jupiter

/-- main.cpp line 115. -/
def saturn : Planet := Planet.make 70 70 380 (0.02 * 0.034) 270 TexId.saturn

/-- main.cpp line 116. -/
def uranus : Planet := Planet.make 60 60 470 (0.02 * 0.012) 315 TexId.uranus

/-- main.cpp line 117. -/
def neptune : Planet := Planet.make 60 60 550 (0.02 * 0.006) 0 TexId.neptune

/-- main.cpp line 119: the planet array, in declaration order. -/
def planets : List Planet :=
  [mercury, venus, earth, mars, jupiter, saturn, uranus, neptune]

/-- The SDL keycode of the escape key. -/
def SDLK_ESCAPE : Int := 27

/-- An SDL event as the loop distinguishes them: a quit event, a key-down
event carrying its keysym, or any other event (tagged by its type code). -/
inductive SDLEvent where
  | quit
  | keyDown (keysym : Int)
  | otherEvent (code : Nat)
deriving DecidableEq

/-- Effect of one polled event on the `running` flag
(main.cpp lines 128-135). -/
def processEvent (running : Bool) (e : SDLEvent) : Bool :=
  match e with
  | SDLEvent.quit => false
  | SDLEvent.keyDown k => if k = SDLK_ESCAPE then false else running
  | SDLEvent.otherEvent _ => running

/-- The inner `while (SDL_PollEvent(&event))` loop (main.cpp lines 127-136):
every queued event is processed, regardless of the flag's current value. -/
def pollEvents (running : Bool) : List SDLEvent → Bool
  | [] => running
  | e :: es => pollEvents (processEvent running e) es

/-- The per-frame planet loop (main.cpp lines 143-146): each planet is
updated and then rendered, in array order.  Returns the updated planets and
the draw commands they emitted. -/
noncomputable def updateAndRenderAll (sunX sunY : Int) : List Planet → List Planet × List DrawCmd
  | [] => ([], [])
  | p :: ps =>
    let p2 := p.updatePosition sunX sunY
    let rest := updateAndRenderAll sunX sunY ps
    (p2 :: rest.1, p2.render :: rest.2)

/-- State carried across iterations of the main loop: the `running` flag and
the planet array. -/
structure LoopState where
  running : Bool
  planets : List Planet

/-- The draw commands of one frame (main.cpp lines 138-148): clear, copy the
background, copy the sun, update-and-render each planet in order, present. -/
noncomputable def frameCommands (ps : List Planet) : List DrawCmd :=
  DrawCmd.clear ::
  DrawCmd.copy TexId.stars backgroundRect ::
  DrawCmd.copy TexId.sun sunRect ::
  ((updateAndRenderAll sunXCoordinate sunYCoordinate ps).2 ++ [DrawCmd.present])

/-- The main loop (main.cpp lines 124-150), driven by the per-frame event
batches the queue delivers.  Each iteration first polls the whole batch, then
renders the frame (even when the batch turned the flag off: the loop
condition is only re-checked at the top).  Returns the final state and the
trace of rendered frames. -/
noncomputable def runLoop : List (List SDLEvent) → LoopState → LoopState × List (List DrawCmd)
  | [], st => (st, [])
  | batch :: rest, st =>
    if st.running then
      let running2 := pollEvents st.running batch
      let ps2 := (updateAndRenderAll sunXCoordinate sunYCoordinate st.planets).1
      let next := runLoop rest { running := running2, planets := ps2 }
      (next.1, frameCommands st.planets :: next.2)
    else (st, [])

/-- The external conditions `main` runs under: whether `SDL_Init` succeeds,
which of the ten textures load successfully, and the event batches the queue
delivers to each loop iteration. -/
structure StartupEnv where
  videoInitOk : Bool
  textureOk : TexId → Bool
  batches : List (List SDLEvent)

/-- Observable outcome of `main`: the exit code, whether a diagnostic was
printed to the error stream, and the rendered frames. -/
structure MainResult where
  exitCode : Int
  errorPrinted : Bool
  frames : List (List DrawCmd)
deriving DecidableEq

/-- The texture check of main.cpp lines 98-99: all ten must be non-null. -/
def texturesAllOk (ok : TexId → Bool) : Bool :=
  ok TexId.stars && ok TexId.sun && ok TexId.mercury && ok TexId.venus &&
  ok TexId.earth && ok TexId.mars && ok TexId.jupiter && ok TexId.saturn &&
  ok TexId.uranus && ok TexId.neptune

/-- `main` (main.cpp lines 72-155): fail with -1 if video init fails; fail
with -1 if any texture is null; otherwise run the loop and return 0. -/
noncomputable def runMain (env : StartupEnv) : MainResult :=
  if env.videoInitOk = false then
    { exitCode := -1, errorPrinted := true, frames := [] }
  else if texturesAllOk env.textureOk = false then
    { exitCode := -1, errorPrinted := true, frames := [] }
  else
    { exitCode := 0, errorPrinted := false,
      frames := (runLoop env.batches { running := true, planets := planets }).2 }

/-- The top-left draw position as the spec words it: the pair
`(cx + r*cos θ - w/2, cy + r*sin θ - h/2)` computed over the reals (`w / 2`
an exact division) and then rounded toward zero.  Written from the spec's
sentence, to be compared with `Planet.updatePosition`. -/
noncomputable def specTopLeft (cx cy : Int) (r θ : ℝ) (w h : Int) : Int × Int :=
  (truncToInt ((cx : ℝ) + r * Real.cos θ - (w : ℝ) / 2),
   truncToInt ((cy : ℝ) + r * Real.sin θ - (h : ℝ) / 2))

/-- One per-frame operation applied to a single planet: a position update
against a sun center, or a render (which does not change the planet). -/
inductive FrameOp where
  | update (sunX sunY : Int)
  | render

/-- Apply one frame operation to a planet. -/
noncomputable def applyOp (p : Planet) : FrameOp → Planet
  | FrameOp.update sx sy => p.updatePosition sx sy
  | FrameOp.render => p

/-- Apply a whole sequence of frame operations to a planet. -/
noncomputable def applyOps (p : Planet) (ops : List FrameOp) : Planet :=
  List.foldl applyOp p ops

/-- A startup environment in which only the earth texture fails to load. -/
def envEarthFails : StartupEnv :=
  { videoInitOk := true, textureOk := fun t => decide (t ≠ TexId.earth), batches := [] }

/-! ## Helper lemmas -/

/-- One update leaves the orbit radius unchanged. -/
theorem updatePosition_orbitRadius (p : Planet) (sx sy : Int) :
    (p.updatePosition sx sy).orbitRadius = p.orbitRadius := rfl

/-- One update leaves the orbit speed unchanged. -/
theorem updatePosition_orbitSpeed (p : Planet) (sx sy : Int) :
    (p.updatePosition sx sy).orbitSpeed = p.orbitSpeed := rfl

/-- One update advances the angle by exactly the orbit speed. -/
theorem updatePosition_angle (p : Planet) (sx sy : Int) :
    (p.updatePosition sx sy).angle = p.angle + p.orbitSpeed := rfl

/-- Iterating the update n times advances the angle by n times the speed. -/
theorem updatePosition_iterate_angle (sx sy : Int) (p : Planet) (n : ℕ) :
    ((fun q => q.updatePosition sx sy)^[n] p).angle = p.angle + n * p.orbitSpeed := by
  induction n generalizing p with
  | zero => simp
  | succ n ih =>
    rw [Function.iterate_succ_apply, ih, updatePosition_angle, updatePosition_orbitSpeed]
    push_cast
    ring

/-- Effect of one event on the running flag, as a proposition. -/
theorem processEvent_eq_false (r : Bool) (e : SDLEvent) :
    processEvent r e = false ↔
      r = false ∨ e = SDLEvent.quit ∨ e = SDLEvent.keyDown SDLK_ESCAPE := by
  rcases e with _ | k | c
  · simp [processEvent]
  · by_cases hk : k = SDLK_ESCAPE <;> simp [processEvent, hk]
  · simp [processEvent]

/-- Polling a batch turns the flag off iff it was off or a quit or escape
key-down event occurs in the batch. -/
theorem pollEvents_eq_false (es : List SDLEvent) (r : Bool) :
    pollEvents r es = false ↔
      r = false ∨ ∃ e ∈ es, e = SDLEvent.quit ∨ e = SDLEvent.keyDown SDLK_ESCAPE := by
  induction es generalizing r with
  | nil => simp [pollEvents]
  | cons e es ih =>
    rw [pollEvents, ih, processEvent_eq_false]
    simp only [List.mem_cons]
    constructor
    · rintro ((hr | he) | ⟨e1, he1, ht⟩)
      · exact Or.inl hr
      · exact Or.inr ⟨e, Or.inl rfl, he⟩
      · exact Or.inr ⟨e1, Or.inr he1, ht⟩
    · rintro (hr | ⟨e1, (rfl | he1), ht⟩)
      · exact Or.inl (Or.inl hr)
      · exact Or.inl (Or.inr ht)
      · exact Or.inr ⟨e1, he1, ht⟩

/-! ## Claims -/

/-- Claim C10 (confirmed): the sun center used for every position update is
the window center, 960 = SCREEN_WIDTH / 2 and 540 = SCREEN_HEIGHT / 2,
computed once before the loop as constants. -/
theorem sun_center_is_window_center :
    sunXCoordinate = 960 ∧ sunXCoordinate = Int.tdiv SCREEN_WIDTH 2 ∧
    sunYCoordinate = 540 ∧ sunYCoordinate = Int.tdiv SCREEN_HEIGHT 2 := by
  refine ⟨by decide, by decide, by decide, by decide⟩

/-- Claim C3 (confirmed): one update adds exactly the body's fixed orbit
speed to its angle, with no clamping and no wraparound, and n iterated
updates add exactly n times the speed. -/
theorem angle_advances_linearly (p : Planet) (sx sy : Int) (n : ℕ) :
    (p.updatePosition sx sy).angle = p.angle + p.orbitSpeed ∧
    ((fun q => q.updatePosition sx sy)^[n] p).angle = p.angle + n * p.orbitSpeed :=
  ⟨rfl, updatePosition_iterate_angle sx sy p n⟩

/-- Claim C8 (confirmed): polling turns the running flag from true to false
exactly when a quit event or an escape key-down is in the batch (every other
event leaves the flag unchanged), and once the flag is false the loop body
never executes again. -/
theorem loop_quits_exactly_on_quit_or_escape :
    (∀ es : List SDLEvent, pollEvents true es = false ↔
        ∃ e ∈ es, e = SDLEvent.quit ∨ e = SDLEvent.keyDown SDLK_ESCAPE) ∧
    (∀ (batch : List SDLEvent) (rest : List (List SDLEvent)) (st : LoopState),
        st.running = false → runLoop (batch :: rest) st = (st, [])) := by
  constructor
  · intro es
    rw [pollEvents_eq_false]
    simp
  · intro batch rest st hst
    rw [runLoop, hst]
    simp

/-- Witness for C8: with the flag already false, the loop consumes nothing. -/
theorem loop_quits_witness :
    LoopState.running ⟨false, []⟩ = false ∧
    runLoop [[SDLEvent.quit]] ⟨false, []⟩ = (⟨false, []⟩, []) :=
  ⟨rfl, loop_quits_exactly_on_quit_or_escape.2 [SDLEvent.quit] [] ⟨false, []⟩ rfl⟩

/-- Claim C5 (confirmed): if video init succeeded but any one of the ten
textures failed to load, main prints a diagnostic to the error stream and
returns -1 (a nonzero exit status) without rendering a single frame, i.e.
before entering the main loop. -/
theorem missing_texture_aborts_before_loop (env : StartupEnv)
    (hinit : env.videoInitOk = true)
    (hfail : ∃ t : TexId, env.textureOk t = false) :
    (runMain env).exitCode = -1 ∧ (runMain env).exitCode ≠ 0 ∧
    (runMain env).errorPrinted = true ∧ (runMain env).frames = [] := by
  obtain ⟨t, ht⟩ := hfail
  have hall : texturesAllOk env.textureOk = false := by
    cases t <;> simp [texturesAllOk, ht]
  rw [runMain]
  simp [hinit, hall]

/-- Witness for C5: with the earth texture missing, main exits with -1,
prints the diagnostic, and renders no frame. -/
theorem missing_texture_witness :
    envEarthFails.videoInitOk = true ∧ envEarthFails.textureOk TexId.earth = false ∧
    (runMain envEarthFails).exitCode = -1 ∧ (runMain envEarthFails).exitCode ≠ 0 ∧
    (runMain envEarthFails).errorPrinted = true ∧ (runMain envEarthFails).frames = [] := by
  have h := missing_texture_aborts_before_loop envEarthFails rfl ⟨TexId.earth, rfl⟩
  exact ⟨rfl, rfl, h.1, h.2.1, h.2.2.1, h.2.2.2⟩

/-- One frame operation (update or render) preserves every field of the
planet except possibly the angle and the rect position. -/
theorem applyOp_preserves (p : Planet) (op : FrameOp) :
    (applyOp p op).orbitRadius = p.orbitRadius ∧
    (applyOp p op).orbitSpeed = p.orbitSpeed ∧
    (applyOp p op).texture = p.texture ∧
    (applyOp p op).halfW = p.halfW ∧
    (applyOp p op).halfH = p.halfH ∧
    (applyOp p op).rect.w = p.rect.w ∧
    (applyOp p op).rect.h = p.rect.h := by
  cases op <;> exact ⟨rfl, rfl, rfl, rfl, rfl, rfl, rfl⟩

/-- Claim C4, amended (corrected): across every sequence of per-frame
operations, a body's orbit radius, orbit speed, texture and sprite size are
unchanged; of the body's fields only the angle and the cached draw position
(rect.x, rect.y) change. -/
theorem run_preserves_structure (p : Planet) (ops : List FrameOp) :
    (applyOps p ops).orbitRadius = p.orbitRadius ∧
    (applyOps p ops).orbitSpeed = p.orbitSpeed ∧
    (applyOps p ops).texture = p.texture ∧
    (applyOps p ops).halfW = p.halfW ∧
    (applyOps p ops).halfH = p.halfH ∧
    (applyOps p ops).rect.w = p.rect.w ∧
    (applyOps p ops).rect.h = p.rect.h := by
  induction ops generalizing p with
  | nil => exact ⟨rfl, rfl, rfl, rfl, rfl, rfl, rfl⟩
  | cons op ops ih =>
    obtain ⟨a1, a2, a3, a4, a5, a6, a7⟩ := ih (applyOp p op)
    obtain ⟨b1, b2, b3, b4, b5, b6, b7⟩ := applyOp_preserves p op
    exact ⟨a1.trans b1, a2.trans b2, a3.trans b3, a4.trans b4, a5.trans b5,
      a6.trans b6, a7.trans b7⟩

/-- Counterexample to C4 as stated: one position update moves this body's
rect.x from 0 to 1025, so an attribute other than the angle changes. -/
theorem update_changes_rect_x :
    ((Planet.make 30 30 80 (0.02 * 4.15) 0 TexId.mercury).updatePosition 960 540).rect.x = 1025 ∧
    (Planet.make 30 30 80 (0.02 * 4.15) 0 TexId.mercury).rect.x = 0 ∧
    ((Planet.make 30 30 80 (0.02 * 4.15) 0 TexId.mercury).updatePosition 960 540).rect.x ≠
      (Planet.make 30 30 80 (0.02 * 4.15) 0 TexId.mercury).rect.x := by
  have h80 : truncToInt (((80 : ℚ) : ℝ) * Real.cos (((0 : ℚ) : ℝ))) = 80 := by
    norm_num [truncToInt]
  have hx : ((Planet.make 30 30 80 (0.02 * 4.15) 0 TexId.mercury).updatePosition 960 540).rect.x
      = 1025 := by
    show 960 + truncToInt (((80 : ℚ) : ℝ) * Real.cos (((0 : ℚ) : ℝ))) - Int.tdiv 30 2 = 1025
    rw [h80]
    decide
  refine ⟨hx, rfl, ?_⟩
  rw [hx]
  decide

/-- The planet list produced by the per-frame loop is the pointwise update
of the input list. -/
theorem updateAndRenderAll_fst (sx sy : Int) (l : List Planet) :
    (updateAndRenderAll sx sy l).1 = l.map (fun p => p.updatePosition sx sy) := by
  induction l with
  | nil => rfl
  | cons p ps ih => simp [updateAndRenderAll, ih]

/-- The draw commands produced by the per-frame loop are the pointwise
renders of the updated planets, in list order. -/
theorem updateAndRenderAll_snd (sx sy : Int) (l : List Planet) :
    (updateAndRenderAll sx sy l).2
      = l.map (fun p => DrawCmd.copy p.texture ((p.updatePosition sx sy).rect)) := by
  induction l with
  | nil => rfl
  | cons p ps ih => simp [updateAndRenderAll, ih, Planet.render, Planet.updatePosition]

/-- Claim C6 (confirmed): each body's update is a pure function of that
body's own prior state and the fixed sun center, so updating the bodies in
any other order yields, up to the reordering, the same final state for every
body. -/
theorem update_order_independent (sx sy : Int) (l₁ l₂ : List Planet) (h : l₁.Perm l₂) :
    ((updateAndRenderAll sx sy l₁).1).Perm ((updateAndRenderAll sx sy l₂).1) ∧
    (updateAndRenderAll sx sy l₁).1 = l₁.map (fun p => p.updatePosition sx sy) := by
  rw [updateAndRenderAll_fst, updateAndRenderAll_fst]
  exact ⟨h.map _, rfl⟩

/-- Witness for C6: exchanging earth and mars in the list exchanges exactly
their two updated states. -/
theorem update_order_independent_witness :
    ([earth, mars].Perm [mars, earth]) ∧
    ((updateAndRenderAll 0 0 [earth, mars]).1).Perm ((updateAndRenderAll 0 0 [mars, earth]).1) ∧
    (updateAndRenderAll 0 0 [earth, mars]).1 = [earth, mars].map (fun p => p.updatePosition 0 0) := by
  have hperm : [earth, mars].Perm [mars, earth] := List.Perm.swap mars earth []
  have h := update_order_independent 0 0 [earth, mars] [mars, earth] hperm
  exact ⟨hperm, h.1, h.2⟩

/-- Claim C7 (confirmed): every frame the loop emits consists of, in order,
the clear, the background copy, the sun copy, one copy per planet in array
order (mercury through neptune, using each planet's updated rectangle), and
the present. -/
theorem frame_draw_order (ps : List Planet) (batches : List (List SDLEvent))
    (st : LoopState) (f : List DrawCmd) (hf : f ∈ (runLoop batches st).2) :
    (∃ qs : List Planet, f = frameCommands qs) ∧
    frameCommands ps =
      DrawCmd.clear :: DrawCmd.copy TexId.stars backgroundRect ::
      DrawCmd.copy TexId.sun sunRect ::
      (ps.map (fun p =>
          DrawCmd.copy p.texture ((p.updatePosition sunXCoordinate sunYCoordinate).rect))
        ++ [DrawCmd.present]) ∧
    planets.map Planet.texture =
      [TexId.mercury, TexId.venus, TexId.earth, TexId.mars, TexId.jupiter,
       TexId.saturn, TexId.uranus, TexId.neptune] := by
  refine ⟨?_, by rw [frameCommands, updateAndRenderAll_snd], by decide⟩
  induction batches generalizing st with
  | nil => simp [runLoop] at hf
  | cons batch rest ih =>
    rw [runLoop] at hf
    by_cases hr : st.running
    · rw [if_pos hr] at hf
      rcases List.mem_cons.mp hf with h1 | h2
      · exact ⟨st.planets, h1⟩
      · exact ih _ h2
    · rw [if_neg hr] at hf
      simp at hf

/-- Witness for C7: the single frame rendered from one empty event batch has
the stated command shape. -/
theorem frame_draw_order_witness :
    frameCommands [] ∈ (runLoop [[]] ⟨true, []⟩).2 ∧
    (∃ qs : List Planet, frameCommands [] = frameCommands qs) := by
  have hf : frameCommands [] ∈ (runLoop [[]] (⟨true, []⟩ : LoopState)).2 := by
    simp [runLoop, pollEvents, updateAndRenderAll]
  exact ⟨hf, (frame_draw_order [] [[]] ⟨true, []⟩ (frameCommands []) hf).1⟩

/-- Claim C1, amended (corrected): the update sets the top-left draw
position to (cx + trunc(r cos θ) - w/2, cy + trunc(r sin θ) - h/2), where
the rounding toward zero applies to the products r·cos θ and r·sin θ alone
and w/2, h/2 are the constructor's truncating integer halves, not exact
halves under an outer rounding. -/
theorem update_position_formula (p : Planet) (cx cy w h : Int) (r s θ : ℚ) (t : TexId) :
    (p.updatePosition cx cy).rect.x
      = cx + truncToInt ((p.orbitRadius : ℝ) * Real.cos (p.angle : ℝ)) - p.halfW ∧
    (p.updatePosition cx cy).rect.y
      = cy + truncToInt ((p.orbitRadius : ℝ) * Real.sin (p.angle : ℝ)) - p.halfH ∧
    (Planet.make w h r s θ t).halfW = Int.tdiv w 2 ∧
    (Planet.make w h r s θ t).halfH = Int.tdiv h 2 :=
  ⟨rfl, rfl, rfl, rfl⟩

/-- Counterexample to C1 as stated: for a sprite of width 2, radius 1/2 and
angle 0 around center (0, 0), the code places rect.x at -1, while the spec's
formula (cx + r cos θ - w/2 as a real, then rounded toward zero) gives
trunc(-0.5) = 0. -/
theorem position_formula_counterexample :
    ((Planet.make 2 2 (1/2) 0 0 TexId.earth).updatePosition 0 0).rect.x = -1 ∧
    (specTopLeft 0 0 (((1/2 : ℚ)) : ℝ) (((0 : ℚ)) : ℝ) 2 2).1 = 0 ∧
    ((Planet.make 2 2 (1/2) 0 0 TexId.earth).updatePosition 0 0).rect.x ≠
      (specTopLeft 0 0 (((1/2 : ℚ)) : ℝ) (((0 : ℚ)) : ℝ) 2 2).1 := by
  have h1 : truncToInt (((1/2 : ℚ) : ℝ) * Real.cos (((0 : ℚ) : ℝ))) = 0 := by
    norm_num [truncToInt]
  have hx : ((Planet.make 2 2 (1/2) 0 0 TexId.earth).updatePosition 0 0).rect.x = -1 := by
    show (0 : Int) + truncToInt (((1/2 : ℚ) : ℝ) * Real.cos (((0 : ℚ) : ℝ))) - Int.tdiv 2 2 = -1
    rw [h1]
    decide
  have hs : (specTopLeft 0 0 (((1/2 : ℚ)) : ℝ) (((0 : ℚ)) : ℝ) 2 2).1 = 0 := by
    show truncToInt (((0 : Int) : ℝ) + ((1/2 : ℚ) : ℝ) * Real.cos (((0 : ℚ) : ℝ)) - ((2 : Int) : ℝ) / 2) = 0
    norm_num [truncToInt]
  exact ⟨hx, hs, by rw [hx, hs]; decide⟩

/-- Counterexample to C2 as stated: the sun center the loop passes to every
update is (960, 540), not (1000, 550), and the earth's initial angle is the
plain number 135 (radians), not 135 degrees. -/
theorem earth_setup_counterexample :
    sunXCoordinate = 960 ∧ sunYCoordinate = 540 ∧
    ¬(sunXCoordinate = 1000 ∧ sunYCoordinate = 550) ∧
    earth.angle = 135 ∧ ((earth.angle : ℝ) ≠ 135 * Real.pi / 180) := by
  refine ⟨by decide, by decide, by decide, by decide, ?_⟩
  have hpi : (135 : ℝ) * Real.pi / 180 < 3 := by nlinarith [Real.pi_lt_d2]
  have he : ((earth.angle : ℚ) : ℝ) = 135 := by norm_num [earth, Planet.make]
  rw [he]
  intro hc
  linarith

/-- Claim C2, amended (corrected): the earth body has radius 175, speed
0.02 and initial angle the literal 135 (radians); updated each frame against
the actual sun center (960, 540), after one update its angle is 135 + 0.02
and its draw position is the code's position formula at radius 175 and the
pre-update angle 135; after n updates its angle is 135 + n * 0.02. -/
theorem earth_orbit_end_to_end :
    earth.orbitRadius = 175 ∧ earth.orbitSpeed = 0.02 ∧ earth.angle = 135 ∧
    (earth.updatePosition sunXCoordinate sunYCoordinate).angle = 135 + 0.02 ∧
    (earth.updatePosition sunXCoordinate sunYCoordinate).rect.x
      = 960 + truncToInt (175 * Real.cos 135) - 25 ∧
    (earth.updatePosition sunXCoordinate sunYCoordinate).rect.y
      = 540 + truncToInt (175 * Real.sin 135) - 25 ∧
    ∀ n : ℕ,
      ((fun q => q.updatePosition sunXCoordinate sunYCoordinate)^[n] earth).angle
        = 135 + n * 0.02 := by
  have hsx : sunXCoordinate = 960 := by decide
  have hsy : sunYCoordinate = 540 := by decide
  have hrc : ((175 : ℚ) : ℝ) = 175 := by norm_num
  have hac : ((135 : ℚ) : ℝ) = 135 := by norm_num
  refine ⟨by decide, rfl, by decide, rfl, ?_, ?_, ?_⟩
  · show sunXCoordinate + truncToInt (((175 : ℚ) : ℝ) * Real.cos (((135 : ℚ) : ℝ))) - Int.tdiv 50 2
        = 960 + truncToInt (175 * Real.cos 135) - 25
    rw [hsx, hrc, hac, show Int.tdiv 50 2 = 25 from by decide]
  · show sunYCoordinate + truncToInt (((175 : ℚ) : ℝ) * Real.sin (((135 : ℚ) : ℝ))) - Int.tdiv 50 2
        = 540 + truncToInt (175 * Real.sin 135) - 25
    rw [hsy, hrc, hac, show Int.tdiv 50 2 = 25 from by decide]
  · intro n
    rw [updatePosition_iterate_angle]
    norm_num [earth, Planet.make]

/-- Truncation toward zero of a value of magnitude at most n stays within
[-n, n]. -/
theorem truncToInt_bounds {x : ℝ} {n : ℤ} (h : |x| ≤ (n : ℝ)) :
    -n ≤ truncToInt x ∧ truncToInt x ≤ n := by
  obtain ⟨h1, h2⟩ := abs_le.mp h
  have hn : (0 : ℤ) ≤ n := by
    have h0 : (0 : ℝ) ≤ (n : ℝ) := le_trans (abs_nonneg x) h
    exact_mod_cast h0
  rw [truncToInt]
  split
  · rename_i hx
    constructor
    · exact le_trans (neg_nonpos.mpr hn) (Int.floor_nonneg.mpr hx)
    · calc ⌊x⌋ ≤ ⌊(n : ℝ)⌋ := Int.floor_mono h2
        _ = n := Int.floor_intCast n
  · rename_i hx
    push_neg at hx
    constructor
    · calc -n = ⌈((-n : ℤ) : ℝ)⌉ := (Int.ceil_intCast (-n)).symm
        _ ≤ ⌈x⌉ := Int.ceil_mono (by push_cast; linarith)
    · exact le_trans (Int.ceil_le.mpr (by push_cast; linarith)) hn

/-- Claim C9 (confirmed): for every planet of the program (orbit radii at
most 550) and every angle, the double-to-int conversions of r·cos θ and
r·sin θ stay within the 32-bit int range, so the steady-state position
update has no error case. -/
theorem update_conversions_in_int_range (p : Planet) (hp : p ∈ planets) (θ : ℝ) :
    -(2^31) ≤ truncToInt ((p.orbitRadius : ℝ) * Real.cos θ) ∧
    truncToInt ((p.orbitRadius : ℝ) * Real.cos θ) < 2^31 ∧
    -(2^31) ≤ truncToInt ((p.orbitRadius : ℝ) * Real.sin θ) ∧
    truncToInt ((p.orbitRadius : ℝ) * Real.sin θ) < 2^31 := by
  have hr : (0 : ℝ) ≤ (p.orbitRadius : ℝ) ∧ (p.orbitRadius : ℝ) ≤ 550 := by
    simp only [planets, List.mem_cons, List.not_mem_nil, or_false] at hp
    rcases hp with rfl | rfl | rfl | rfl | rfl | rfl | rfl | rfl <;> constructor <;>
      norm_num [mercury, venus, earth, mars, jupiter, saturn, uranus, neptune, Planet.make]
  have hb : ∀ u : ℝ, |u| ≤ 1 → |(p.orbitRadius : ℝ) * u| ≤ ((550 : ℤ) : ℝ) := by
    intro u hu
    rw [abs_mul]
    calc |(p.orbitRadius : ℝ)| * |u| ≤ 550 * 1 := by
          apply mul_le_mul
          · rw [abs_of_nonneg hr.1]; exact hr.2
          · exact hu
          · exact abs_nonneg u
          · norm_num
      _ = ((550 : ℤ) : ℝ) := by norm_num
  obtain ⟨c1, c2⟩ := truncToInt_bounds (hb (Real.cos θ) (Real.abs_cos_le_one θ))
  obtain ⟨s1, s2⟩ := truncToInt_bounds (hb (Real.sin θ) (Real.abs_sin_le_one θ))
  refine ⟨by omega, by omega, by omega, by omega⟩

/-- Witness for C9: mercury is in the program's planet list, and its
conversions are within range at angle 0. -/
theorem update_conversions_witness :
    mercury ∈ planets ∧
    (-(2^31) ≤ truncToInt ((mercury.orbitRadius : ℝ) * Real.cos 0) ∧
     truncToInt ((mercury.orbitRadius : ℝ) * Real.cos 0) < 2^31 ∧
     -(2^31) ≤ truncToInt ((mercury.orbitRadius : ℝ) * Real.sin 0) ∧
     truncToInt ((mercury.orbitRadius : ℝ) * Real.sin 0) < 2^31) := by
  have hm : mercury ∈ planets := by simp [planets]
  exact ⟨hm, update_conversions_in_int_range mercury hm 0⟩
